import Mathlib

/-!
Shallow embedding of the `homedir` crate (src/lib.rs, src/windows.rs, src/unix.rs).

The OS primitives (LookupAccountNameW, ConvertSidToStringSidW, GetTokenInformation,
SHGetKnownFolderPath, CoCreateInstance, the WMI enumerator, getpwnam/getpwuid, ...)
are external services; each operation is therefore embedded as a pure function of
an explicit environment record describing the primitives' responses for that call,
and it returns the operation's result together with a trace of the OS calls and
buffer events it performed, in source order.
-/

/-- Decidable equality for `Except`, used to evaluate the embedded operations'
results on concrete environments. -/
instance {ε : Type u} {α : Type v} [DecidableEq ε] [DecidableEq α] :
    DecidableEq (Except ε α)
  | .error x, .error y =>
    if h : x = y then .isTrue (congrArg Except.error h)
    else .isFalse (fun hh => h (by cases hh; rfl))
  | .error _, .ok _ => .isFalse (fun hh => by cases hh)
  | .ok _, .error _ => .isFalse (fun hh => by cases hh)
  | .ok x, .ok y =>
    if h : x = y then .isTrue (congrArg Except.ok h)
    else .isFalse (fun hh => h (by cases hh; rfl))

namespace Homedir

namespace Windows

/-- A Windows status code (`windows::core::Error`), carried as its numeric code. -/
structure WinError where
  code : Int
deriving DecidableEq, Repr

/-- `ERROR_NONE_MAPPED` (1332): no mapping between account names and SIDs. -/
def eNoneMapped : WinError := ⟨1332⟩

/-- `ERROR_INSUFFICIENT_BUFFER` (122). -/
def eInsufficientBuffer : WinError := ⟨122⟩

/-- `E_UNEXPECTED`. -/
def eUnexpected : WinError := ⟨0x8000FFFF⟩

/-- `E_OUTOFMEMORY`. -/
def eOutOfMemory : WinError := ⟨0x8007000E⟩

/-- `E_INVALIDARG`. -/
def eInvalidArg : WinError := ⟨0x80070057⟩

/-- `CO_E_NOTINITIALIZED`: the COM library has not been initialized. -/
def coNotInit : WinError := ⟨0x800401F0⟩

/-- `WBEM_INFINITE` (-1 as i32): the infinite-wait sentinel for `IEnumWbemClassObject::Next`. -/
def wbemInfinite : Int := -1

/-- `homedir::windows::GetHomeError` (windows.rs, enum GetHomeError). -/
inductive GetHomeError where
  /-- `GetHomeError::WindowsError` -/
  | WindowsError (e : WinError)
  /-- `GetHomeError::Utf16Error` -/
  | Utf16Error
  /-- `GetHomeError::ContainsNul` (carries the nul position) -/
  | ContainsNul (pos : Nat)
  /-- `GetHomeError::NullPointerResult` -/
  | NullPointerResult
deriving DecidableEq, Repr

/-- `homedir::windows::UserIdentifier`: the textual form of a SID. -/
structure UserIdentifier where
  sid : String
deriving DecidableEq, Repr

/-- One OS call or manual buffer event performed by a Windows operation. -/
inductive WinEvent where
  /-- a `LookupAccountNameW` call; `probe` is true for the zero-buffer size probe,
  and the two sizes are the SID and domain buffer capacities passed in. -/
  | lookupAccountName (probe : Bool) (sidBufSize : Nat) (domainBufSize : Nat)
  /-- an `alloc_zeroed` of a manually managed buffer of the given size -/
  | allocBuf (size : Nat)
  /-- the matching `dealloc` -/
  | deallocBuf (size : Nat)
  /-- a `ConvertSidToStringSidW` call -/
  | convertSid
  /-- a `LocalFree` of the converted-string buffer -/
  | localFree
  /-- an `OpenProcessToken` call -/
  | openProcessToken
  /-- a `CloseHandle` on the process token handle -/
  | closeHandle
  /-- a `GetTokenInformation` call; `probe` is true for the zero-buffer size probe -/
  | getTokenInformation (probe : Bool) (bufSize : Nat)
  /-- a `SHGetKnownFolderPath` call -/
  | shGetKnownFolderPath
  /-- a `CoTaskMemFree` of the known-folder buffer -/
  | coTaskMemFree
  /-- a `CoCreateInstance` attempt for the `WbemLocator` component -/
  | coCreateInstance
  /-- a `CoInitializeEx(COINIT_MULTITHREADED)` call -/
  | coInitializeEx
  /-- an `IWbemLocator::ConnectServer` call -/
  | connectServer
  /-- a `CoSetProxyBlanket` call -/
  | setProxyBlanket
  /-- an `IWbemServices::ExecQuery` for the profile of the given SID -/
  | execQuery (sid : String)
  /-- an `IEnumWbemClassObject::Next` call with the given timeout and element count -/
  | enumNext (timeout : Int) (requested : Nat)
  /-- an `IWbemClassObject::Get` of the `LocalPath` field -/
  | variantGet
deriving DecidableEq, Repr

/-- UTF-16 encoding of one Rust `char` (`widestring` encoding step). -/
def encodeChar (c : Char) : List Nat :=
  if c.toNat < 0x10000 then [c.toNat]
  else [0xD800 + (c.toNat - 0x10000) / 0x400, 0xDC00 + (c.toNat - 0x10000) % 0x400]

/-- UTF-16 encoding of a Rust `&str` as a list of 16-bit code units. -/
def encodeStr (s : String) : List Nat :=
  (s.data.map encodeChar).flatten

/-- Position of the first nul unit in a wide string, if any (the
`iter().position(|&val| val == 0)` step of `U16CString::from_vec`). -/
def findNulPos : List Nat → Option Nat
  | [] => none
  | u :: rest => if u = 0 then some 0 else (findNulPos rest).map (· + 1)

/-- `widestring::U16CString::from_str`: encode to UTF-16 and fail with the position of
the first interior nul unit, if any (`ContainsNul` carries that position). -/
def u16StringFromStr (s : String) : Except Nat (List Nat) :=
  match findNulPos (encodeStr s) with
  | some i => .error i
  | none => .ok (encodeStr s)

/-- UTF-16 decoding (`U16CStr::to_string`): code units to characters, failing on an
unpaired or out-of-order surrogate. -/
def decodeUtf16Aux : List Nat → Option (List Char)
  | [] => some []
  | u :: rest =>
    if u < 0xD800 ∨ (0xE000 ≤ u ∧ u < 0x10000) then
      (decodeUtf16Aux rest).map (fun cs => Char.ofNat u :: cs)
    else if 0xD800 ≤ u ∧ u < 0xDC00 then
      match rest with
      | [] => none
      | v :: rest2 =>
        if 0xDC00 ≤ v ∧ v < 0xE000 then
          (decodeUtf16Aux rest2).map
            (fun cs => Char.ofNat (0x10000 + (u - 0xD800) * 0x400 + (v - 0xDC00)) :: cs)
        else none
    else none

/-- UTF-16 decoding to a `String`. -/
def decodeUtf16 (us : List Nat) : Option String :=
  (decodeUtf16Aux us).map List.asString

/-- Environment for `sid_to_string`: the response of `ConvertSidToStringSidW`
(the converted wide string's code units on success), whether the final `LocalFree`
succeeds, and the `GetLastError` value observed if it does not. -/
structure SidToStringEnv where
  convert : Except WinError (List Nat)
  localFreeOk : Bool
  lastError : WinError

/-- `sid_to_string` (windows.rs): convert a SID to its textual form, freeing the
conversion buffer with `LocalFree` on both the success and the decode-failure path. -/
def sid_to_string (env : SidToStringEnv) :
    Except GetHomeError UserIdentifier × List WinEvent :=
  match env.convert with
  | .error e => (.error (.WindowsError e), [.convertSid])
  | .ok units =>
    match decodeUtf16 units with
    | none => (.error .Utf16Error, [.convertSid, .localFree])
    | some s =>
      if env.localFreeOk then (.ok ⟨s⟩, [.convertSid, .localFree])
      else (.error (.WindowsError env.lastError), [.convertSid, .localFree])

/-- Environment for `UserIdentifier::with_username`: the outcome of the zero-buffer
`LookupAccountNameW` probe together with the sizes it reports, whether `alloc_zeroed`
succeeds, the outcome of the second `LookupAccountNameW` call, and the behaviour of
the SID-to-string conversion. -/
structure LookupEnv where
  probeOutcome : Except WinError Unit
  probeSidSize : Nat
  probeDomainSize : Nat
  allocOk : Bool
  second : Except WinError Unit
  sidEnv : SidToStringEnv

/-- The part of `with_username` after the probe branch has decided to continue:
check the reported SID size, allocate, re-invoke `LookupAccountNameW` with real
buffers, convert, and deallocate the SID buffer on every path after allocation.
The returned trace does not include the probe event. -/
def lookupSecondPhase (env : LookupEnv) :
    Except GetHomeError (Option UserIdentifier) × List WinEvent :=
  if env.probeSidSize = 0 then
    (.error (.WindowsError eUnexpected), [])
  else if env.allocOk then
    let ret : Except GetHomeError (Option UserIdentifier) × List WinEvent :=
      match env.second with
      | .error e => (.error (.WindowsError e), [])
      | .ok _ =>
        let r := sid_to_string env.sidEnv
        (r.1.map some, r.2)
    (ret.1,
      WinEvent.allocBuf env.probeSidSize ::
      WinEvent.lookupAccountName false env.probeSidSize env.probeDomainSize ::
      (ret.2 ++ [WinEvent.deallocBuf env.probeSidSize]))
  else
    (.error (.WindowsError eOutOfMemory), [WinEvent.allocBuf env.probeSidSize])

/-- `UserIdentifier::with_username` (windows.rs): encode the username (failing fast on
an interior nul), probe `LookupAccountNameW` with zero-length buffers, map
`ERROR_NONE_MAPPED` to `Ok(None)`, surface any probe error other than
`ERROR_INSUFFICIENT_BUFFER`, and otherwise continue with `lookupSecondPhase`. -/
def with_username (env : LookupEnv) (username : String) :
    Except GetHomeError (Option UserIdentifier) × List WinEvent :=
  match u16StringFromStr username with
  | .error p => (.error (.ContainsNul p), [])
  | .ok _ =>
    match env.probeOutcome with
    | .error e =>
      if e = eNoneMapped then (.ok none, [WinEvent.lookupAccountName true 0 0])
      else if e ≠ eInsufficientBuffer then
        (.error (.WindowsError e), [WinEvent.lookupAccountName true 0 0])
      else
        let r := lookupSecondPhase env
        (r.1, WinEvent.lookupAccountName true 0 0 :: r.2)
    | .ok _ =>
      let r := lookupSecondPhase env
      (r.1, WinEvent.lookupAccountName true 0 0 :: r.2)

/-- Environment for `UserIdentifier::my_id`: outcomes of `OpenProcessToken`, of the
`GetTokenInformation` size probe (with the size it reports), of `alloc_zeroed`, of
the real `GetTokenInformation` fetch, the SID conversion behaviour, and the outcome
of the `CloseHandle` calls whose result the source checks with `?`. -/
structure MyIdEnv where
  openOutcome : Except WinError Unit
  probeOutcome : Except WinError Unit
  probeSize : Nat
  allocOk : Bool
  fetch : Except WinError Unit
  sidEnv : SidToStringEnv
  closeOutcome : Except WinError Unit

/-- The part of `my_id` after the probe branch has decided to continue. Mirrors the
source exactly: when the reported buffer size is zero it returns `E_UNEXPECTED`
without any `CloseHandle`; on allocation failure it closes the handle (checking the
result with `?`) and returns `E_OUTOFMEMORY`; otherwise it fetches, converts,
deallocates the buffer and closes the handle with `?`. The returned trace does not
include the open and probe events. -/
def myIdAfterProbe (env : MyIdEnv) :
    Except GetHomeError UserIdentifier × List WinEvent :=
  if env.probeSize = 0 then
    (.error (.WindowsError eUnexpected), [])
  else if env.allocOk then
    let ret : Except GetHomeError UserIdentifier × List WinEvent :=
      match env.fetch with
      | .error e => (.error (.WindowsError e), [])
      | .ok _ => sid_to_string env.sidEnv
    let t :=
      WinEvent.allocBuf env.probeSize ::
      WinEvent.getTokenInformation false env.probeSize ::
      (ret.2 ++ [WinEvent.deallocBuf env.probeSize, WinEvent.closeHandle])
    match env.closeOutcome with
    | .error ce => (.error (.WindowsError ce), t)
    | .ok _ => (ret.1, t)
  else
    match env.closeOutcome with
    | .error ce =>
      (.error (.WindowsError ce), [WinEvent.allocBuf env.probeSize, WinEvent.closeHandle])
    | .ok _ =>
      (.error (.WindowsError eOutOfMemory),
        [WinEvent.allocBuf env.probeSize, WinEvent.closeHandle])

/-- `UserIdentifier::my_id` (windows.rs): open the process token, probe the
`TokenUser` information size, close-and-return on a probe error other than
`ERROR_INSUFFICIENT_BUFFER`, and otherwise continue with `myIdAfterProbe`. -/
def my_id (env : MyIdEnv) : Except GetHomeError UserIdentifier × List WinEvent :=
  match env.openOutcome with
  | .error e => (.error (.WindowsError e), [WinEvent.openProcessToken])
  | .ok _ =>
    match env.probeOutcome with
    | .error e =>
      if e ≠ eInsufficientBuffer then
        (.error (.WindowsError e),
          [WinEvent.openProcessToken, WinEvent.getTokenInformation true 0,
           WinEvent.closeHandle])
      else
        let r := myIdAfterProbe env
        (r.1, WinEvent.openProcessToken :: WinEvent.getTokenInformation true 0 :: r.2)
    | .ok _ =>
      let r := myIdAfterProbe env
      (r.1, WinEvent.openProcessToken :: WinEvent.getTokenInformation true 0 :: r.2)

/-- A Windows path (`PathBuf` built from an `OsString`), kept as its wide code units. -/
abbrev WinPath := List Nat

/-- Environment for windows `my_home`: the response of `SHGetKnownFolderPath` —
an error status, or success carrying either a null pointer (`none`) or the
path buffer's wide contents (`some units`). -/
structure MyHomeEnv where
  sh : Except WinError (Option WinPath)

/-- `my_home` (windows.rs): call `SHGetKnownFolderPath(FOLDERID_Profile)`;
propagate any error status with `?`; return `Ok(None)` when the returned pointer is
null; otherwise read the path and free the buffer with `CoTaskMemFree`. -/
def my_home (env : MyHomeEnv) :
    Except GetHomeError (Option WinPath) × List WinEvent :=
  match env.sh with
  | .error e => (.error (.WindowsError e), [WinEvent.shGetKnownFolderPath])
  | .ok none => (.ok none, [WinEvent.shGetKnownFolderPath])
  | .ok (some units) =>
    (.ok (some units), [WinEvent.shGetKnownFolderPath, WinEvent.coTaskMemFree])

/-- Environment for `GetHomeInstance::new`: whether the `windows-coinitialize`
feature is enabled, the outcomes of the first and (possible) second
`CoCreateInstance` attempts, of `CoInitializeEx`, of `ConnectServer` and of
`CoSetProxyBlanket`. -/
structure CoEnv where
  autoInit : Bool
  create1 : Except WinError Unit
  initOutcome : Except WinError Unit
  create2 : Except WinError Unit
  connect : Except WinError Unit
  proxy : Except WinError Unit

/-- The tail of `GetHomeInstance::new` once an `IWbemLocator` instance exists:
`ConnectServer` to `ROOT\CIMV2` then `CoSetProxyBlanket`, propagating errors. -/
def newConnectPhase (env : CoEnv) (t : List WinEvent) :
    Except GetHomeError Unit × List WinEvent :=
  match env.connect with
  | .error e => (.error (.WindowsError e), t ++ [WinEvent.connectServer])
  | .ok _ =>
    match env.proxy with
    | .error e =>
      (.error (.WindowsError e), t ++ [WinEvent.connectServer, WinEvent.setProxyBlanket])
    | .ok _ => (.ok (), t ++ [WinEvent.connectServer, WinEvent.setProxyBlanket])

/-- `GetHomeInstance::new` (windows.rs): attempt `CoCreateInstance`; with the
`windows-coinitialize` feature, when that fails exactly with `CO_E_NOTINITIALIZED`,
call `CoInitializeEx(COINIT_MULTITHREADED)` and retry the instantiation once,
propagating any other failure — and any failure of the retry — immediately;
without the feature, propagate every instantiation failure. -/
def newInstance (env : CoEnv) : Except GetHomeError Unit × List WinEvent :=
  if env.autoInit then
    match env.create1 with
    | .ok _ => newConnectPhase env [WinEvent.coCreateInstance]
    | .error e =>
      if e ≠ coNotInit then (.error (.WindowsError e), [WinEvent.coCreateInstance])
      else
        match env.initOutcome with
        | .error ie =>
          (.error (.WindowsError ie), [WinEvent.coCreateInstance, WinEvent.coInitializeEx])
        | .ok _ =>
          match env.create2 with
          | .error e2 =>
            (.error (.WindowsError e2),
              [WinEvent.coCreateInstance, WinEvent.coInitializeEx, WinEvent.coCreateInstance])
          | .ok _ =>
            newConnectPhase env
              [WinEvent.coCreateInstance, WinEvent.coInitializeEx, WinEvent.coCreateInstance]
  else
    match env.create1 with
    | .error e => (.error (.WindowsError e), [WinEvent.coCreateInstance])
    | .ok _ => newConnectPhase env [WinEvent.coCreateInstance]

/-- The value stored in the `VARIANT` returned for the `LocalPath` field: the
active type tag reported through the `Get` call's type output, and the wide
contents of the union read as its `bstrVal` member. -/
structure VariantVal where
  vt : Nat
  bstr : WinPath
deriving DecidableEq, Repr

/-- Environment for `GetHomeInstance::query_home`: the outcomes of `ExecQuery` and
of the enumerator's `Next` (checked with `.ok()?`), the row count `Next` reports,
whether the returned row object pointer is non-null, and the outcome of the `Get`
of the `LocalPath` field. -/
structure QueryEnv where
  exec : Except WinError Unit
  nextOutcome : Except WinError Unit
  rowCount : Nat
  rowNonNull : Bool
  getOutcome : Except WinError VariantVal

/-- `GetHomeInstance::query_home` (windows.rs): execute the WQL query for the
identifier, pull one element from the enumerator with `Next(WBEM_INFINITE, ..)`,
return `Ok(None)` on a zero row count, `NullPointerResult` on a null row object,
and otherwise `Get` the `LocalPath` variant and decode its `bstrVal` member. -/
def query_home (env : QueryEnv) (id : UserIdentifier) :
    Except GetHomeError (Option WinPath) × List WinEvent :=
  match env.exec with
  | .error e => (.error (.WindowsError e), [WinEvent.execQuery id.sid])
  | .ok _ =>
    match env.nextOutcome with
    | .error e =>
      (.error (.WindowsError e), [WinEvent.execQuery id.sid, WinEvent.enumNext wbemInfinite 1])
    | .ok _ =>
      if env.rowCount = 0 then
        (.ok none, [WinEvent.execQuery id.sid, WinEvent.enumNext wbemInfinite 1])
      else if env.rowNonNull then
        match env.getOutcome with
        | .error e =>
          (.error (.WindowsError e),
            [WinEvent.execQuery id.sid, WinEvent.enumNext wbemInfinite 1, WinEvent.variantGet])
        | .ok v =>
          (.ok (some v.bstr),
            [WinEvent.execQuery id.sid, WinEvent.enumNext wbemInfinite 1, WinEvent.variantGet])
      else
        (.error .NullPointerResult,
          [WinEvent.execQuery id.sid, WinEvent.enumNext wbemInfinite 1])

/-- `UserIdentifier::to_home` (windows.rs): `GetHomeInstance::new` followed by
`query_home`. -/
def to_home (co : CoEnv) (q : QueryEnv) (id : UserIdentifier) :
    Except GetHomeError (Option WinPath) × List WinEvent :=
  match newInstance co with
  | (.error e, t) => (.error e, t)
  | (.ok _, t) =>
    let r := query_home q id
    (r.1, t ++ r.2)

/-- The full environment of a windows `home` call. -/
structure WinEnv where
  lookup : LookupEnv
  co : CoEnv
  query : QueryEnv

/-- `home` (windows.rs): `UserIdentifier::with_username` followed, when an
identifier was found, by `UserIdentifier::to_home`. -/
def home (env : WinEnv) (username : String) :
    Except GetHomeError (Option WinPath) × List WinEvent :=
  match with_username env.lookup username with
  | (.error e, t) => (.error e, t)
  | (.ok none, t) => (.ok none, t)
  | (.ok (some id), t) =>
    let r := to_home env.co env.query id
    (r.1, t ++ r.2)

/-- Number of `closeHandle` events in a trace. -/
def countClose : List WinEvent → Nat
  | [] => 0
  | WinEvent.closeHandle :: t => countClose t + 1
  | _ :: t => countClose t

/-- Number of `openProcessToken` events in a trace. -/
def countOpen : List WinEvent → Nat
  | [] => 0
  | WinEvent.openProcessToken :: t => countOpen t + 1
  | _ :: t => countOpen t

/-- Number of `coCreateInstance` attempts in a trace. -/
def countCreate : List WinEvent → Nat
  | [] => 0
  | WinEvent.coCreateInstance :: t => countCreate t + 1
  | _ :: t => countCreate t

/-- Number of enumerator `Next` calls in a trace. -/
def countNext : List WinEvent → Nat
  | [] => 0
  | WinEvent.enumNext _ _ :: t => countNext t + 1
  | _ :: t => countNext t

/-- `VT_BSTR`, the VARIANT type tag under which a `bstrVal` member is the
active one. -/
def vtBstr : Nat := 8

end Windows

namespace Unix

/-- The fields of a `nix::unistd::User` record that this crate reads. -/
structure User where
  uid : Nat
  dir : String
deriving DecidableEq, Repr

/-- `homedir::unix::UserIdentifier`: a numeric user id. -/
structure UserIdentifier where
  uid : Nat
deriving DecidableEq, Repr

/-- Environment of the Unix backend: the account database keyed by name
(`User::from_name` / getpwnam) and by uid (`User::from_uid` / getpwuid), the
`HOME` environment variable, and the current real uid (`Uid::current`).
Errors are `nix::errno::Errno` values, carried as numbers. -/
structure UnixEnv where
  getpwnam : String → Except Nat (Option User)
  getpwuid : Nat → Except Nat (Option User)
  homeVar : Option String
  currentUid : Nat

/-- `home` (unix.rs): `User::from_name(username)?.map(|user| user.dir)`. -/
def home (env : UnixEnv) (username : String) : Except Nat (Option String) :=
  (env.getpwnam username).map (fun o => o.map (fun u => u.dir))

/-- `UserIdentifier::with_username` (unix.rs):
`User::from_name(username)?.map(|user| UserIdentifier(user.uid))`. -/
def with_username (env : UnixEnv) (username : String) :
    Except Nat (Option UserIdentifier) :=
  (env.getpwnam username).map (fun o => o.map (fun u => ⟨u.uid⟩))

/-- `UserIdentifier::my_id` (unix.rs): `Ok(Self(Uid::current()))`. -/
def my_id (env : UnixEnv) : Except Nat UserIdentifier :=
  .ok ⟨env.currentUid⟩

/-- `UserIdentifier::to_home` (unix.rs): `User::from_uid(self.0)?.map(|user| user.dir)`. -/
def to_home (env : UnixEnv) (id : UserIdentifier) : Except Nat (Option String) :=
  (env.getpwuid id.uid).map (fun o => o.map (fun u => u.dir))

/-- `my_home` (unix.rs): return `$HOME` when set, else the `dir` field of the
account-database entry for the current real uid. -/
def my_home (env : UnixEnv) : Except Nat (Option String) :=
  match env.homeVar with
  | some s => .ok (some s)
  | none => (env.getpwuid env.currentUid).map (fun o => o.map (fun u => u.dir))

end Unix

/-! Concrete environments, used to evaluate the operations at specific inputs. -/

/-- A SID conversion that succeeds and yields the wide string `[83]` (`"S"`). -/
def sidOkEnv : Windows.SidToStringEnv := ⟨.ok [83], true, ⟨0⟩⟩

/-- A lookup where the probe reports `ERROR_INSUFFICIENT_BUFFER` with sizes 4 and 2,
allocation succeeds, and the second `LookupAccountNameW` fails with code 5. -/
def lookupSecondErrEnv : Windows.LookupEnv :=
  ⟨.error Windows.eInsufficientBuffer, 4, 2, true, .error ⟨5⟩, sidOkEnv⟩

/-- A fully successful lookup: probe reports `ERROR_INSUFFICIENT_BUFFER` with sizes
4 and 2, the second call succeeds, and the SID converts to `"S"`. -/
def lookupOkEnv : Windows.LookupEnv :=
  ⟨.error Windows.eInsufficientBuffer, 4, 2, true, .ok (), sidOkEnv⟩

/-- A fully successful COM environment. -/
def coOkEnv : Windows.CoEnv := ⟨true, .ok (), .ok (), .ok (), .ok (), .ok ()⟩

/-- A COM environment where the first instantiation fails with
`CO_E_NOTINITIALIZED`, initialization succeeds, and the retry fails with code 7. -/
def coRetryFailEnv : Windows.CoEnv :=
  ⟨true, .error Windows.coNotInit, .ok (), .error ⟨7⟩, .ok (), .ok ()⟩

/-- A query returning one non-null row whose `LocalPath` variant carries type tag 0
(`VT_EMPTY`, not `VT_BSTR`) and payload `[67]`. -/
def qEnvBadTag : Windows.QueryEnv := ⟨.ok (), .ok (), 1, true, .ok ⟨0, [67]⟩⟩

/-- A query that succeeds with zero result rows. -/
def qEnvEmpty : Windows.QueryEnv := ⟨.ok (), .ok (), 0, true, .ok ⟨8, []⟩⟩

/-- A query whose single returned row object is a null pointer. -/
def qEnvNullRow : Windows.QueryEnv := ⟨.ok (), .ok (), 1, false, .ok ⟨8, []⟩⟩

/-- A query returning one non-null row with a `VT_BSTR`-tagged `LocalPath` of `[67]`. -/
def qEnvOkRow : Windows.QueryEnv := ⟨.ok (), .ok (), 1, true, .ok ⟨8, [67]⟩⟩

/-- A full Windows environment where everything succeeds. -/
def winOkEnv : Windows.WinEnv := ⟨lookupOkEnv, coOkEnv, qEnvOkRow⟩

/-- `SHGetKnownFolderPath` failing with `E_INVALIDARG`. -/
def mhEnvInvalid : Windows.MyHomeEnv := ⟨.error Windows.eInvalidArg⟩

/-- `SHGetKnownFolderPath` succeeding but returning a null buffer pointer. -/
def mhEnvNull : Windows.MyHomeEnv := ⟨.ok none⟩

/-- A `my_id` environment where the token opens, the `GetTokenInformation` size
probe reports `ERROR_INSUFFICIENT_BUFFER` with a required size of zero, and every
other primitive would succeed. -/
def myIdEnvBug : Windows.MyIdEnv :=
  ⟨.ok (), .error Windows.eInsufficientBuffer, 0, true, .ok (), sidOkEnv, .ok ()⟩

/-- A Unix account database with one user, `bob` with uid 7 and home `/home/bob`,
and with `HOME` set to `/tmp/x`. -/
def unixDbEnv : Unix.UnixEnv where
  getpwnam := fun s => if s = "bob" then .ok (some ⟨7, "/home/bob"⟩) else .ok none
  getpwuid := fun u => if u = 7 then .ok (some ⟨7, "/home/bob"⟩) else .ok none
  homeVar := some "/tmp/x"
  currentUid := 7

/-- A Unix environment with an empty account database and `HOME` unset. -/
def unixEmptyEnv : Unix.UnixEnv where
  getpwnam := fun _ => .ok none
  getpwuid := fun _ => .ok none
  homeVar := none
  currentUid := 7

/-! Helper lemmas about the UTF-16 encoding step. -/

/-- If a wide string contains a nul unit, `findNulPos` finds one. -/
theorem findNulPos_of_mem {l : List Nat} (h : 0 ∈ l) :
    ∃ i, Windows.findNulPos l = some i := by
  induction l with
  | nil => cases h
  | cons a t ih =>
    by_cases ha : a = 0
    · exact ⟨0, by simp [Windows.findNulPos, ha]⟩
    · rcases List.mem_cons.mp h with h0 | hmem
      · exact absurd h0.symm ha
      · obtain ⟨i, hi⟩ := ih hmem
        exact ⟨i + 1, by simp [Windows.findNulPos, ha, hi]⟩

/-- A string containing the nul character encodes to a wide string containing a
nul unit. -/
theorem zero_mem_encodeStr {s : String}
    (h : (s.data.any fun c => c.toNat == 0) = true) : 0 ∈ Windows.encodeStr s := by
  rw [List.any_eq_true] at h
  obtain ⟨c, hc, hc0⟩ := h
  have hc0' : c.toNat = 0 := by simpa using hc0
  unfold Windows.encodeStr
  rw [List.mem_flatten]
  refine ⟨Windows.encodeChar c, List.mem_map_of_mem _ hc, ?_⟩
  simp [Windows.encodeChar, hc0']

/-! Claim theorems. -/

/-- Claim C2 (counterexample): a result row whose `LocalPath` variant carries the
type tag 0 (`VT_EMPTY`, not `VT_BSTR`) is not returned as Failed: `query_home`
decodes the union's `bstrVal` member anyway and returns it as a found path. -/
theorem C2_counterexample :
    qEnvBadTag.getOutcome = .ok ⟨0, [67]⟩
    ∧ (0 : Nat) ≠ Windows.vtBstr
    ∧ (Windows.query_home qEnvBadTag ⟨"S-1-5-21-9"⟩).1 = .ok (some [67]) :=
  ⟨rfl, by decide, rfl⟩

/-- Claim C2 (amended): `query_home` returns NotFound (`Ok(None)`) when the query
yields zero result rows; when a non-null row is present, the `LocalPath` variant's
`bstrVal` member is decoded unconditionally — the fetched type tag is never
checked — and the payload is returned as the path whatever the tag is. -/
theorem C2_query_home_decodes_unchecked (env : Windows.QueryEnv)
    (id : Windows.UserIdentifier) :
    (env.exec = .ok () → env.nextOutcome = .ok () → env.rowCount = 0 →
      (Windows.query_home env id).1 = .ok none)
    ∧ (∀ v, env.exec = .ok () → env.nextOutcome = .ok () → env.rowCount ≠ 0 →
        env.rowNonNull = true → env.getOutcome = .ok v →
        (Windows.query_home env id).1 = .ok (some v.bstr)) := by
  constructor
  · intro h1 h2 h3
    simp [Windows.query_home, h1, h2, h3]
  · intro v h1 h2 h3 h4 h5
    simp [Windows.query_home, h1, h2, h3, h4, h5]

/-- Claim C2 (witness): on a query with zero rows the amended theorem evaluates to
NotFound. -/
theorem C2_witness :
    (Windows.query_home qEnvEmpty ⟨"S-1-5-21-9"⟩).1 = .ok none :=
  (C2_query_home_decodes_unchecked qEnvEmpty ⟨"S-1-5-21-9"⟩).1 rfl rfl rfl

/-- Claim C3 (counterexample): when `SHGetKnownFolderPath` fails with
`E_INVALIDARG`, windows `my_home` returns that status as Failed, not NotFound. -/
theorem C3_counterexample :
    (Windows.my_home mhEnvInvalid).1 = .error (.WindowsError Windows.eInvalidArg)
    ∧ (Windows.my_home mhEnvInvalid).1 ≠ .ok none :=
  ⟨rfl, by decide⟩

/-- Claim C3 (amended): windows `my_home` calls the known-folder resolution for the
profile category; every non-success status — the invalid-argument one included — is
returned as Failed, and NotFound is produced exactly when the call succeeds but
yields a null buffer pointer. -/
theorem C3_my_home_status_mapping (env : Windows.MyHomeEnv) :
    (∀ e, env.sh = .error e →
      (Windows.my_home env).1 = .error (.WindowsError e))
    ∧ (env.sh = .ok none → (Windows.my_home env).1 = .ok none)
    ∧ (∀ units, env.sh = .ok (some units) →
        (Windows.my_home env).1 = .ok (some units)) := by
  refine ⟨?_, ?_, ?_⟩
  · intro e h; simp [Windows.my_home, h]
  · intro h; simp [Windows.my_home, h]
  · intro units h; simp [Windows.my_home, h]

/-- Claim C3 (witness): the amended theorem evaluated at the `E_INVALIDARG`
environment. -/
theorem C3_witness :
    (Windows.my_home mhEnvInvalid).1 = .error (.WindowsError Windows.eInvalidArg) :=
  (C3_my_home_status_mapping mhEnvInvalid).1 Windows.eInvalidArg rfl

/-- Claim C4 (code bug): when the `GetTokenInformation` size probe reports
`ERROR_INSUFFICIENT_BUFFER` with a required size of zero, `my_id` returns
`E_UNEXPECTED` without ever calling `CloseHandle`, although the token handle was
opened: the trace holds one `openProcessToken` and zero `closeHandle` events. -/
theorem C4_token_handle_leak :
    (Windows.my_id myIdEnvBug).1 = .error (.WindowsError Windows.eUnexpected)
    ∧ Windows.countOpen (Windows.my_id myIdEnvBug).2 = 1
    ∧ Windows.countClose (Windows.my_id myIdEnvBug).2 = 0 := by
  refine ⟨rfl, rfl, rfl⟩

/-- Claim C5 (counterexample): a null known-folder output pointer in windows
`my_home` is mapped to the non-error outcome `Ok(None)`, not surfaced as a
`NullPointerResult` error. -/
theorem C5_counterexample :
    (Windows.my_home mhEnvNull).1 = .ok none
    ∧ (Windows.my_home mhEnvNull).1 ≠ .error .NullPointerResult :=
  ⟨rfl, by decide⟩

/-- Claim C5 (amended): a null enumerator row object in `query_home` is surfaced as
the `NullPointerResult` error, but a null known-folder output pointer in `my_home`
is mapped to NotFound (`Ok(None)`) rather than to an error. -/
theorem C5_null_pointer_handling (qenv : Windows.QueryEnv)
    (id : Windows.UserIdentifier) (menv : Windows.MyHomeEnv) :
    (qenv.exec = .ok () → qenv.nextOutcome = .ok () → qenv.rowCount ≠ 0 →
      qenv.rowNonNull = false →
      (Windows.query_home qenv id).1 = .error .NullPointerResult)
    ∧ (menv.sh = .ok none → (Windows.my_home menv).1 = .ok none) := by
  constructor
  · intro h1 h2 h3 h4
    simp [Windows.query_home, h1, h2, h3, h4]
  · intro h
    simp [Windows.my_home, h]

/-- Claim C5 (witness): the amended theorem evaluated at a null row object and at a
null known-folder pointer. -/
theorem C5_witness :
    (Windows.query_home qEnvNullRow ⟨"S-1-5-21-9"⟩).1 = .error .NullPointerResult
    ∧ (Windows.my_home mhEnvNull).1 = .ok none :=
  ⟨(C5_null_pointer_handling qEnvNullRow ⟨"S-1-5-21-9"⟩ mhEnvNull).1 rfl rfl
      (by decide) rfl,
   (C5_null_pointer_handling qEnvNullRow ⟨"S-1-5-21-9"⟩ mhEnvNull).2 rfl⟩

/-- Claim C6: for any username containing an embedded nul character, windows
`with_username` and `home` fail with the dedicated `ContainsNul` error and make no
OS call at all (the trace is empty). -/
theorem C6_nul_username_fails_fast (wenv : Windows.WinEnv)
    (lenv : Windows.LookupEnv) (u : String)
    (h : (u.data.any fun c => c.toNat == 0) = true) :
    (∃ p, Windows.with_username lenv u = (.error (.ContainsNul p), []))
    ∧ (∃ p, Windows.home wenv u = (.error (.ContainsNul p), [])) := by
  obtain ⟨i, hi⟩ := findNulPos_of_mem (zero_mem_encodeStr h)
  have henc : Windows.u16StringFromStr u = .error i := by
    unfold Windows.u16StringFromStr
    rw [hi]
  refine ⟨⟨i, ?_⟩, ⟨i, ?_⟩⟩
  · simp [Windows.with_username, henc]
  · simp [Windows.home, Windows.with_username, henc]

/-- Claim C6 (witness): the theorem evaluated on the username `"a\x00b"`. -/
theorem C6_witness :
    (("a\x00b".data.any fun c => c.toNat == 0) = true)
    ∧ ((∃ p, Windows.with_username lookupOkEnv "a\x00b" =
          (.error (.ContainsNul p), []))
      ∧ (∃ p, Windows.home winOkEnv "a\x00b" = (.error (.ContainsNul p), []))) :=
  ⟨by decide, C6_nul_username_fails_fast winOkEnv lookupOkEnv "a\x00b" (by decide)⟩

/-- Claim C10: Unix `my_home` returns the value of `HOME` whenever it is set,
whatever the account database holds; when `HOME` is unset it returns the `dir`
field of the account-database entry for the current real uid, and NotFound when
that entry is absent. -/
theorem C10_unix_my_home (env : Unix.UnixEnv) :
    (∀ s, env.homeVar = some s → Unix.my_home env = .ok (some s))
    ∧ (env.homeVar = none →
        Unix.my_home env =
          (env.getpwuid env.currentUid).map (fun o => o.map (fun u => u.dir)))
    ∧ (env.homeVar = none → env.getpwuid env.currentUid = .ok none →
        Unix.my_home env = .ok none) := by
  refine ⟨?_, ?_, ?_⟩
  · intro s hs; simp [Unix.my_home, hs]
  · intro h; simp [Unix.my_home, h]
  · intro h h2; simp [Unix.my_home, h, h2, Except.map]

/-- Claim C10 (witness): with `HOME=/tmp/x` the override wins even though the
database entry for uid 7 is `/home/bob`; with `HOME` unset and no database entry
the result is NotFound. -/
theorem C10_witness :
    Unix.my_home unixDbEnv = .ok (some "/tmp/x")
    ∧ Unix.my_home unixEmptyEnv = .ok none :=
  ⟨(C10_unix_my_home unixDbEnv).1 "/tmp/x" rfl,
   (C10_unix_my_home unixEmptyEnv).2.2 rfl rfl⟩

/-- Claim C1: for every username that encodes, `with_username` first probes
`LookupAccountNameW` with zero-length buffers; a probe failure of
`ERROR_NONE_MAPPED` yields NotFound; any other failure except
`ERROR_INSUFFICIENT_BUFFER` is returned as Failed; on `ERROR_INSUFFICIENT_BUFFER`
it allocates exactly the reported SID size and re-invokes with real SID and domain
buffers of the reported sizes; a failure of that second invocation is returned as
Failed. -/
theorem C1_with_username_probe_flow (env : Windows.LookupEnv) (u : String)
    (units : List Nat) (henc : Windows.u16StringFromStr u = .ok units) :
    ((Windows.with_username env u).2.head? =
        some (Windows.WinEvent.lookupAccountName true 0 0))
    ∧ (env.probeOutcome = .error Windows.eNoneMapped →
        (Windows.with_username env u).1 = .ok none)
    ∧ (∀ e, env.probeOutcome = .error e → e ≠ Windows.eNoneMapped →
        e ≠ Windows.eInsufficientBuffer →
        (Windows.with_username env u).1 = .error (.WindowsError e))
    ∧ (env.probeOutcome = .error Windows.eInsufficientBuffer →
        0 < env.probeSidSize → env.allocOk = true →
        Windows.WinEvent.allocBuf env.probeSidSize ∈ (Windows.with_username env u).2
        ∧ Windows.WinEvent.lookupAccountName false env.probeSidSize env.probeDomainSize
            ∈ (Windows.with_username env u).2)
    ∧ (∀ e, env.probeOutcome = .error Windows.eInsufficientBuffer →
        0 < env.probeSidSize → env.allocOk = true → env.second = .error e →
        (Windows.with_username env u).1 = .error (.WindowsError e)) := by
  refine ⟨?_, ?_, ?_, ?_, ?_⟩
  · rcases hp : env.probeOutcome with e | u1
    · by_cases h1 : e = Windows.eNoneMapped
      · simp [Windows.with_username, henc, hp, h1]
      · by_cases h2 : e = Windows.eInsufficientBuffer
        · simp [Windows.with_username, henc, hp, h1, h2, Windows.eNoneMapped,
            Windows.eInsufficientBuffer]
        · simp [Windows.with_username, henc, hp, h1, h2]
    · simp [Windows.with_username, henc, hp]
  · intro hp
    simp [Windows.with_username, henc, hp]
  · intro e hp h1 h2
    simp [Windows.with_username, henc, hp, h1, h2]
  · intro hp hs ha
    have hne : env.probeSidSize ≠ 0 := by omega
    simp [Windows.with_username, henc, hp, Windows.eNoneMapped,
      Windows.eInsufficientBuffer, Windows.lookupSecondPhase, hne, ha]
  · intro e hp hs ha h2
    have hne : env.probeSidSize ≠ 0 := by omega
    simp [Windows.with_username, henc, hp, Windows.eNoneMapped,
      Windows.eInsufficientBuffer, Windows.lookupSecondPhase, hne, ha, h2]

/-- Claim C1 (witness): the theorem evaluated where the probe reports
`ERROR_INSUFFICIENT_BUFFER` with SID size 4 and the second invocation fails with
code 5. -/
theorem C1_witness :
    Windows.u16StringFromStr "a" = .ok [97]
    ∧ (Windows.with_username lookupSecondErrEnv "a").1 =
        .error (.WindowsError ⟨5⟩) :=
  ⟨by decide,
   (C1_with_username_probe_flow lookupSecondErrEnv "a" [97] (by decide)).2.2.2.2
     ⟨5⟩ rfl (by decide) rfl rfl⟩

/-- Claim C7: when an account exists for a username, the two-step API agrees with
the one-step API. On Windows, `home` is `with_username` followed by `to_home`, so
when `with_username` found an identifier the results coincide. On Unix, when the
account database maps the name to a user and maps that user's uid back to the same
user record, `with_username` finds the uid and `to_home` on it equals `home`. -/
theorem C7_two_step_consistency
    (wenv : Windows.WinEnv) (wu : String) (wid : Windows.UserIdentifier)
    (t : List Windows.WinEvent)
    (hw : Windows.with_username wenv.lookup wu = (.ok (some wid), t))
    (uenv : Unix.UnixEnv) (uu : String) (user : Unix.User)
    (hn : uenv.getpwnam uu = .ok (some user))
    (hc : uenv.getpwuid user.uid = .ok (some user)) :
    (Windows.home wenv wu).1 = (Windows.to_home wenv.co wenv.query wid).1
    ∧ Unix.with_username uenv uu = .ok (some ⟨user.uid⟩)
    ∧ Unix.to_home uenv ⟨user.uid⟩ = Unix.home uenv uu := by
  refine ⟨?_, ?_, ?_⟩
  · simp [Windows.home, hw]
  · simp [Unix.with_username, hn, Except.map]
  · simp [Unix.to_home, Unix.home, hn, hc, Except.map]

/-- Claim C7 (witness): the theorem evaluated on a fully successful Windows
environment resolving `"a"` to the SID text `"S"`, and on a Unix database mapping
`bob` to uid 7 with home `/home/bob`. -/
theorem C7_witness :
    (Windows.home winOkEnv "a").1 =
      (Windows.to_home winOkEnv.co winOkEnv.query ⟨"S"⟩).1
    ∧ Unix.with_username unixDbEnv "bob" = .ok (some ⟨7⟩)
    ∧ Unix.to_home unixDbEnv ⟨7⟩ = Unix.home unixDbEnv "bob" :=
  C7_two_step_consistency winOkEnv "a" ⟨"S"⟩
    [Windows.WinEvent.lookupAccountName true 0 0, Windows.WinEvent.allocBuf 4,
     Windows.WinEvent.lookupAccountName false 4 2, Windows.WinEvent.convertSid,
     Windows.WinEvent.localFree, Windows.WinEvent.deallocBuf 4]
    (by decide) unixDbEnv "bob" ⟨7, "/home/bob"⟩ (by decide) (by decide)

/-- Claim C8: `GetHomeInstance::new` attempts `CoCreateInstance` at most twice; a
second attempt happens exactly when auto-initialization is enabled, the first
attempt failed with `CO_E_NOTINITIALIZED` and `CoInitializeEx` succeeded; any other
first-attempt failure, every failure without auto-initialization, and any failure
of the retried instantiation are each propagated immediately. -/
theorem C8_retry_at_most_once (env : Windows.CoEnv) :
    Windows.countCreate (Windows.newInstance env).2 ≤ 2
    ∧ (env.autoInit = false → Windows.countCreate (Windows.newInstance env).2 ≤ 1)
    ∧ (Windows.countCreate (Windows.newInstance env).2 = 2 →
        env.autoInit = true ∧ env.create1 = .error Windows.coNotInit
          ∧ env.initOutcome = .ok ())
    ∧ (∀ e, env.create1 = .error e → e ≠ Windows.coNotInit →
        (Windows.newInstance env).1 = .error (.WindowsError e)
        ∧ Windows.countCreate (Windows.newInstance env).2 = 1)
    ∧ (env.autoInit = false → ∀ e, env.create1 = .error e →
        (Windows.newInstance env).1 = .error (.WindowsError e))
    ∧ (∀ e2, env.autoInit = true → env.create1 = .error Windows.coNotInit →
        env.initOutcome = .ok () → env.create2 = .error e2 →
        (Windows.newInstance env).1 = .error (.WindowsError e2)
        ∧ Windows.countCreate (Windows.newInstance env).2 = 2) := by
  obtain ⟨ai, c1, io, c2, cn, px⟩ := env
  cases ai <;> rcases c1 with e1 | ⟨⟩ <;> rcases io with ei | ⟨⟩ <;>
    rcases c2 with e2 | ⟨⟩ <;> rcases cn with ec | ⟨⟩ <;> rcases px with ep | ⟨⟩ <;>
    first
      | (by_cases h1 : e1 = Windows.coNotInit <;>
          simp_all [Windows.newInstance, Windows.newConnectPhase,
            Windows.countCreate])
      | simp_all [Windows.newInstance, Windows.newConnectPhase,
          Windows.countCreate]

/-- Claim C8 (witness): with auto-initialization enabled, a first failure of
`CO_E_NOTINITIALIZED`, successful initialization and a retry failing with code 7,
the retry error is propagated and exactly two instantiation attempts were made. -/
theorem C8_witness :
    (Windows.newInstance coRetryFailEnv).1 = .error (.WindowsError ⟨7⟩)
    ∧ Windows.countCreate (Windows.newInstance coRetryFailEnv).2 = 2 :=
  (C8_retry_at_most_once coRetryFailEnv).2.2.2.2.2 ⟨7⟩ rfl rfl rfl rfl

/-- Claim C9 (counterexample): the single-row fetch of `query_home` passes
`WBEM_INFINITE` (-1, the infinite-wait sentinel) as the `Next` timeout, not a
finite timeout: on a successful empty query the trace is exactly the query
followed by `Next(WBEM_INFINITE, 1)`. -/
theorem C9_counterexample :
    (Windows.query_home qEnvEmpty ⟨"S-1-5-21-9"⟩).2 =
      [Windows.WinEvent.execQuery "S-1-5-21-9",
       Windows.WinEvent.enumNext Windows.wbemInfinite 1]
    ∧ Windows.wbemInfinite = -1 ∧ Windows.wbemInfinite < 0 :=
  ⟨rfl, rfl, by decide⟩

/-- Claim C9 (amended): `query_home` pulls at most one result row — it performs at
most one enumerator `Next` call and that call requests exactly one element — but it
does so with the infinite `WBEM_INFINITE` wait, not a bounded one. -/
theorem C9_single_row_infinite_wait (env : Windows.QueryEnv)
    (id : Windows.UserIdentifier) :
    (∀ t n, Windows.WinEvent.enumNext t n ∈ (Windows.query_home env id).2 →
      t = Windows.wbemInfinite ∧ n = 1)
    ∧ Windows.countNext (Windows.query_home env id).2 ≤ 1 := by
  obtain ⟨ex, nx, rc, rn, g⟩ := env
  rcases ex with e | ⟨⟩ <;> rcases nx with e2 | ⟨⟩ <;>
    (try by_cases hrc : rc = 0) <;> cases rn <;> rcases g with e3 | v <;>
    simp_all [Windows.query_home, Windows.countNext]

/-- Claim C9 (witness): the amended theorem evaluated on the successful empty
query. -/
theorem C9_witness :
    ((-1 : Int) = Windows.wbemInfinite ∧ (1 : Nat) = 1)
    ∧ Windows.countNext (Windows.query_home qEnvEmpty ⟨"S-1-5-21-9"⟩).2 ≤ 1 :=
  ⟨(C9_single_row_infinite_wait qEnvEmpty ⟨"S-1-5-21-9"⟩).1 (-1) 1 (by decide),
   (C9_single_row_infinite_wait qEnvEmpty ⟨"S-1-5-21-9"⟩).2⟩

end Homedir
